import Mathlib

/-!
Shallow embedding of the process-supervisor layer in `src/api_server.py`
(the FastAPI server that configures, starts, stops and observes the
portfolio engine `project.py`), together with a spec-modelled embedding of
the `PortfolioConfig` validation of `project.py` (that file is absent from
the repository; only its test suite is present).

Modelling conventions:
* Python floats become `ℚ` (the claims are about field copying and
  comparisons, not float rounding).
* The filesystem and the process table become an explicit `World` record;
  each handler is a function `World → result × World`.
* `json.loads` applied to a stripped line is an abstract parameter
  `jsonLoads : String → Option R`: `none` models a raised
  `json.JSONDecodeError` (an unparseable line), `some r` a parsed record.
* An audit log file on disk is `Option (List String)`: `none` when the file
  does not exist, otherwise the list of lines `readlines` returns.
-/

/-- A JSON value as written by `json.dump` for the config file: the fields
are floats/ints (`num`), strings (`str`) or `None` (`null`). -/
inductive JValue where
  | num (v : ℚ)
  | str (s : String)
  | null
deriving DecidableEq, Repr

/-- The `ConfigurationRequest` pydantic model of `api_server.py` after
pydantic has filled in defaults: every field holds its final value. -/
structure ConfigurationRequest where
  api_base_url : String
  api_key : String
  api_secret : String
  risk_free_rate : ℚ
  rebalance_interval : Int
  target_sharpe : Option ℚ
  cov_window : Int
  price_endpoint : String
  position_endpoint : String
  audit_log_path : String
deriving DecidableEq, Repr

/-- A configure request as sent by a client: optional fields are `none`
when the request omits them, and pydantic then substitutes the default
declared in `ConfigurationRequest` (lines 43-53 of `api_server.py`). -/
structure RawConfigurationRequest where
  api_base_url : String
  api_key : String
  api_secret : Option String
  risk_free_rate : Option ℚ
  rebalance_interval : Option Int
  target_sharpe : Option ℚ
  cov_window : Option Int
  price_endpoint : Option String
  position_endpoint : Option String
  audit_log_path : Option String
deriving DecidableEq, Repr

/-- Pydantic default substitution for `ConfigurationRequest`:
`api_secret = ""`, `risk_free_rate = 0.02`, `rebalance_interval = 300`,
`target_sharpe = None`, `cov_window = 60`, `price_endpoint = "/prices"`,
`position_endpoint = "/positions"`, `audit_log_path = "audit.log"`. -/
def resolveRequest (r : RawConfigurationRequest) : ConfigurationRequest where
  api_base_url := r.api_base_url
  api_key := r.api_key
  api_secret := r.api_secret.getD ""
  risk_free_rate := r.risk_free_rate.getD (2/100)
  rebalance_interval := r.rebalance_interval.getD 300
  target_sharpe := r.target_sharpe
  cov_window := r.cov_window.getD 60
  price_endpoint := r.price_endpoint.getD "/prices"
  position_endpoint := r.position_endpoint.getD "/positions"
  audit_log_path := r.audit_log_path.getD "audit.log"

/-- Python `s.startswith(p)`: the first `len(p)` characters of `s` are
exactly `p`. -/
def pyStartsWith (s p : String) : Bool :=
  s.data.take p.data.length == p.data

/-- The `validate_https_url` pydantic validator (lines 55-59): accepts the
URL iff it starts with `https://`, otherwise raises a `ValueError`. -/
def validate_https_url (v : String) : Except String String :=
  if pyStartsWith v "https://" then Except.ok v
  else Except.error "API URL must use HTTPS"

/-- `create_env_file` (lines 150-157): the exact text written to `.env`,
an f-string with two `KEY=value` lines. -/
def create_env_file (config : ConfigurationRequest) : String :=
  "API_URL=" ++ config.api_base_url ++ "\n" ++
  "API_TOKEN=" ++ config.api_key ++ "\n"

/-- `create_config_file` (lines 159-172): the JSON object written to
`config.json`, as an (ordered) association list of its fields. -/
def create_config_file (config : ConfigurationRequest) : List (String × JValue) :=
  [("risk_free_rate", JValue.num config.risk_free_rate),
   ("rebalance_interval", JValue.num config.rebalance_interval),
   ("target_sharpe", match config.target_sharpe with
      | none => JValue.null
      | some t => JValue.num t),
   ("cov_window", JValue.num config.cov_window),
   ("price_endpoint", JValue.str config.price_endpoint),
   ("position_endpoint", JValue.str config.position_endpoint),
   ("audit_log_path", JValue.str config.audit_log_path)]

/-- Spec-side description of the config file, written from §6 of the spec:
a JSON object with exactly the fields `risk_free_rate`,
`rebalance_interval`, `target_sharpe` (optional), `cov_window`,
`price_endpoint`, `position_endpoint`, `audit_log_path`, each taken from
the request or its documented default when omitted. -/
def configFileSpec (r : RawConfigurationRequest) : List (String × JValue) :=
  [("risk_free_rate", JValue.num (r.risk_free_rate.getD (2/100))),
   ("rebalance_interval", JValue.num (r.rebalance_interval.getD 300)),
   ("target_sharpe", match r.target_sharpe with
      | none => JValue.null
      | some t => JValue.num t),
   ("cov_window", JValue.num (r.cov_window.getD 60)),
   ("price_endpoint", JValue.str (r.price_endpoint.getD "/prices")),
   ("position_endpoint", JValue.str (r.position_endpoint.getD "/positions")),
   ("audit_log_path", JValue.str (r.audit_log_path.getD "audit.log"))]

/-- Spec-side description of the credential file, written from §6 of the
spec: two key/value lines binding the venue base URL and the access
token. -/
def envFileSpec (venueBaseUrl accessToken : String) : String :=
  "API_URL=" ++ venueBaseUrl ++ "\n" ++ "API_TOKEN=" ++ accessToken ++ "\n"

/-- Python `xs[-limit:]` for an `int` limit: a negative start index counts
from the end and is clamped at 0, a nonnegative one is clamped at the
length. -/
def pySliceLast {α : Type} (xs : List α) (limit : Int) : List α :=
  if 0 < limit then xs.drop (xs.length - limit.toNat)
  else if limit = 0 then xs
  else xs.drop (-limit).toNat

/-- `read_latest_audit_record` (lines 174-199): when the audit file exists
it reads all lines and returns `json.loads` of the stripped last line; a
missing/empty file, or any exception (in particular a `JSONDecodeError` on
the last line), yields `None`. `jsonLoads` stands for
`lambda line: json.loads(line.strip())`. -/
def read_latest_audit_record {R : Type} (jsonLoads : String → Option R)
    (auditFile : Option (List String)) : Option R :=
  match auditFile with
  | none => none
  | some lines => lines.getLast?.bind jsonLoads

/-- `get_audit_log` (lines 281-314): when the audit file exists it takes
the last `limit` lines (`lines[-limit:] if len(lines) > limit else lines`),
iterates over them in reverse, parses each stripped line and skips lines
whose parse raises `JSONDecodeError`. A missing file yields `[]`. -/
def get_audit_log {R : Type} (jsonLoads : String → Option R)
    (auditFile : Option (List String)) (limit : Int) : List R :=
  match auditFile with
  | none => []
  | some lines =>
    let recent := if (lines.length : Int) > limit then pySliceLast lines limit
                  else lines
    recent.reverse.filterMap jsonLoads

/-- Trace actions for the side effects of `stop_project_service`. -/
inductive SupAction where
  | terminateProc (pid : Nat)
  | waitProc (pid : Nat) (timeoutSeconds : Nat)
  | killProc (pid : Nat)
  | removePidFile
deriving DecidableEq, Repr

/-- The world the supervisor acts on: filesystem (config.json, .env,
project_service.pid) and a summary of the process table. `runningPid` is
the live `project.py` process as `is_project_running` would observe it
through the pid file or the full process scan (lines 81-104);
`exitsWithinGrace` says whether that process would exit within the 10 s
grace period after `terminate`; `popenFails` whether `subprocess.Popen`
would raise; `freshPid` the pid the OS would assign to a newly spawned
process; `startKeepsRunning` whether the newly spawned process is still
alive (and detected) after the post-start sleep. -/
structure World where
  configFile : Option (List (String × JValue))
  envFile : Option String
  pidFile : Option Nat
  runningPid : Option Nat
  exitsWithinGrace : Bool
  popenFails : Bool
  freshPid : Nat
  startKeepsRunning : Bool
deriving DecidableEq, Repr

/-- `is_project_running` (lines 81-104): `(True, pid)` iff a `project.py`
process is found via the pid file or the process scan, else
`(False, None)`. -/
def is_project_running (w : World) : Bool × Option Nat :=
  match w.runningPid with
  | some pid => (true, some pid)
  | none => (false, none)

/-- Result of `stop_project_service`: the returned boolean, the world
afterwards, and the trace of process/filesystem actions performed. -/
structure StopResult where
  success : Bool
  world : World
  trace : List SupAction
deriving DecidableEq, Repr

/-- `stop_project_service` (lines 125-148): returns `True` immediately if
no project process is found; otherwise `terminate`s it, `wait`s up to 10
seconds, `kill`s it only if the wait times out, removes the pid file if it
exists, and returns `True`. -/
def stop_project_service (w : World) : StopResult :=
  match is_project_running w with
  | (false, _) => ⟨true, w, []⟩
  | (true, none) => ⟨true, w, []⟩
  | (true, some pid) =>
    let acts := [SupAction.terminateProc pid, SupAction.waitProc pid 10] ++
      (if w.exitsWithinGrace then [] else [SupAction.killProc pid])
    let w1 : World := { w with runningPid := none }
    match w1.pidFile with
    | some _ => ⟨true, { w1 with pidFile := none }, acts ++ [SupAction.removePidFile]⟩
    | none => ⟨true, w1, acts⟩

/-- `start_project_service` (lines 106-123): spawns `python project.py`
(raising if `Popen` fails) and writes the new pid to the pid file. -/
def start_project_service (w : World) : Except String (Nat × World) :=
  if w.popenFails then Except.error "Failed to start project.py"
  else
    Except.ok (w.freshPid,
      { w with pidFile := some w.freshPid,
               runningPid := if w.startKeepsRunning then some w.freshPid else none })

/-- The `/configure` endpoint `configure_service` (lines 202-231) together
with the pydantic validation that FastAPI runs before the handler body:
validation failure rejects the request before any effect; otherwise the
handler stops any running service, writes `.env` and `config.json`, starts
`project.py` and checks that it is running. Any exception becomes an HTTP
400 error. -/
def configure_service (r : RawConfigurationRequest) (w : World) :
    Except String String × World :=
  match validate_https_url r.api_base_url with
  | Except.error e => (Except.error e, w)
  | Except.ok _ =>
    let config := resolveRequest r
    let w1 := (stop_project_service w).world
    let w2 : World := { w1 with envFile := some (create_env_file config) }
    let w3 : World := { w2 with configFile := some (create_config_file config) }
    match start_project_service w3 with
    | Except.error e => (Except.error ("Configuration failed: " ++ e), w3)
    | Except.ok (_, w4) =>
      match is_project_running w4 with
      | (true, some pid) =>
        (Except.ok ("Portfolio service configured and started successfully (PID: "
          ++ toString pid ++ ")"), w4)
      | _ => (Except.error "Configuration failed: Service failed to start", w4)

/-- The `/stop` endpoint `stop_service` (lines 316-327): wraps
`stop_project_service`, reporting success or an HTTP 500 error. -/
def stop_service (w : World) : Except String String × World :=
  let r := stop_project_service w
  if r.success then (Except.ok "Portfolio service stopped successfully", r.world)
  else (Except.error "Failed to stop service", r.world)

/-- The `/restart` endpoint `restart_service` (lines 329-348): stops the
current service, starts a new instance and checks that it is running; it
never touches `config.json` or `.env`. -/
def restart_service (w : World) : Except String String × World :=
  let w1 := (stop_project_service w).world
  match start_project_service w1 with
  | Except.error e => (Except.error ("Failed to restart service: " ++ e), w1)
  | Except.ok (_, w2) =>
    match is_project_running w2 with
    | (true, some pid) =>
      (Except.ok ("Portfolio service restarted successfully (PID: "
        ++ toString pid ++ ")"), w2)
    | _ => (Except.error "Service failed to restart", w2)

/-- Modelled from the spec: `project.py` (the engine defining
`PortfolioConfig`) is not in the repository; only its test suite
`src/test_enhanced_project.py` is. Fields of a `PortfolioConfig` under
construction, per §3/§4.1 of the spec and the constructor calls in the
tests. -/
structure PortfolioConfigData where
  assets : List String
  risk_free_rate : ℚ
  min_weight_per_asset : ℚ
  max_weight_per_asset : ℚ
  rebalance_interval : Int
  cov_window : Int
deriving DecidableEq, Repr

/-- Modelled from the spec: the validation rules of §4.1 ("fails with
`ConfigError` listing every violated rule (not just the first) when: asset
list empty, duplicate symbols, `risk_free_rate` outside [0,1],
`min_weight_per_asset >= max_weight_per_asset`, or non-positive
interval/window values"), with the error messages the tests match on. -/
def configViolations (c : PortfolioConfigData) : List String :=
  (if c.assets = [] then ["Assets list cannot be empty"] else []) ++
  (if c.assets.Nodup then [] else ["Duplicate asset symbols found"]) ++
  (if c.risk_free_rate < 0 ∨ 1 < c.risk_free_rate then
    ["risk_free_rate must be between 0 and 1"] else []) ++
  (if c.max_weight_per_asset ≤ c.min_weight_per_asset then
    ["min_weight_per_asset must be less than max_weight_per_asset"] else []) ++
  (if c.rebalance_interval ≤ 0 then ["rebalance_interval must be positive"] else []) ++
  (if c.cov_window ≤ 0 then ["cov_window must be positive"] else [])

/-- Modelled from the spec: `PortfolioConfig` construction — an invalid
config never becomes active, construction fails immediately with the list
of violated rules. -/
def PortfolioConfig.construct (c : PortfolioConfigData) :
    Except (List String) PortfolioConfigData :=
  match configViolations c with
  | [] => Except.ok c
  | vs => Except.error vs

/-- `Except.isError`-style discriminator used in claim statements. -/
def exceptFails {ε α : Type} : Except ε α → Bool
  | Except.error _ => true
  | Except.ok _ => false

/-- A concrete stand-in for `json.loads` on stripped lines, used to
instantiate the audit-log theorems on explicit files: the digit lines
parse to the corresponding record, anything else raises (is `none`). -/
def demoParse (s : String) : Option Nat :=
  if s = "1" then some 1 else if s = "2" then some 2 else if s = "3" then some 3
  else if s = "7" then some 7 else none

/-- A concrete world with a running engine process (pid 41) that ignores
the graceful-termination signal, used to instantiate theorems. -/
def wRunDemo : World where
  configFile := some [("k", JValue.null)]
  envFile := some "E"
  pidFile := some 41
  runningPid := some 41
  exitsWithinGrace := false
  popenFails := false
  freshPid := 42
  startKeepsRunning := true

/-- A concrete world with no engine process running, used to instantiate
theorems. -/
def wIdleDemo : World where
  configFile := none
  envFile := none
  pidFile := none
  runningPid := none
  exitsWithinGrace := true
  popenFails := false
  freshPid := 42
  startKeepsRunning := true

/-- A concrete configure request with an HTTPS venue URL that omits every
optional field, used to instantiate theorems. -/
def rHttpsDemo : RawConfigurationRequest where
  api_base_url := "https://venue.example"
  api_key := "key123"
  api_secret := none
  risk_free_rate := none
  rebalance_interval := none
  target_sharpe := none
  cov_window := none
  price_endpoint := none
  position_endpoint := none
  audit_log_path := none

/-- A concrete configure request with a plain-HTTP venue URL, used to
instantiate theorems. -/
def rHttpDemo : RawConfigurationRequest where
  api_base_url := "http://venue.example"
  api_key := "key123"
  api_secret := some "sec"
  risk_free_rate := none
  rebalance_interval := none
  target_sharpe := none
  cov_window := none
  price_endpoint := none
  position_endpoint := none
  audit_log_path := none

/-- A concrete `PortfolioConfigData` with the duplicated asset list of the
test suite and otherwise valid fields. -/
def cDupDemo : PortfolioConfigData where
  assets := ["BTC", "ETH", "BTC"]
  risk_free_rate := 0
  min_weight_per_asset := 0
  max_weight_per_asset := 1
  rebalance_interval := 300
  cov_window := 60

/-- A concrete `PortfolioConfigData` with an empty asset list and
otherwise valid fields. -/
def cEmptyDemo : PortfolioConfigData where
  assets := []
  risk_free_rate := 0
  min_weight_per_asset := 0
  max_weight_per_asset := 1
  rebalance_interval := 300
  cov_window := 60

theorem filterMap_allSome {α β : Type} (f : α → Option β) :
    ∀ xs : List α, (∀ x ∈ xs, (f x).isSome) →
      (xs.filterMap f).length = xs.length ∧
      ∀ i : Nat, (xs.filterMap f)[i]? = xs[i]?.bind f
  | [], _ => by simp
  | x :: xs, h => by
    obtain ⟨b, hb⟩ : ∃ b, f x = some b :=
      Option.isSome_iff_exists.mp (h x (List.mem_cons_self x xs))
    have ih := filterMap_allSome f xs (fun y hy => h y (List.mem_cons_of_mem x hy))
    refine ⟨by simp [List.filterMap_cons, hb, ih.1], ?_⟩
    intro i
    cases i with
    | zero => simp [List.filterMap_cons, hb]
    | succ n => simp [List.filterMap_cons, hb, ih.2 n]

theorem recent_eq_drop {α : Type} (xs : List α) (n : Int) (hn : 0 < n) :
    (if (xs.length : Int) > n then pySliceLast xs n else xs) =
      xs.drop (xs.length - n.toNat) := by
  by_cases h : (xs.length : Int) > n
  · simp [h, pySliceLast, hn]
  · have hle : xs.length ≤ n.toNat := by omega
    simp [h, Nat.sub_eq_zero_of_le hle]

theorem get_audit_log_eq {R : Type} (jsonLoads : String → Option R)
    (lines : List String) (n : Int) (hn : 0 < n) :
    get_audit_log jsonLoads (some lines) n =
      ((lines.drop (lines.length - n.toNat)).reverse).filterMap jsonLoads := by
  show ((if (lines.length : Int) > n then pySliceLast lines n
    else lines).reverse).filterMap jsonLoads = _
  rw [recent_eq_drop lines n hn]

theorem dropRev_filter {R : Type} (jsonLoads : String → Option R)
    (lines : List String) (hall : ∀ l ∈ lines, (jsonLoads l).isSome)
    (m : Nat) (hm : m ≤ lines.length) :
    (((lines.drop (lines.length - m)).reverse).filterMap jsonLoads).length = m ∧
    ∀ i < m, (((lines.drop (lines.length - m)).reverse).filterMap jsonLoads)[i]? =
      (lines[lines.length - 1 - i]?).bind jsonLoads := by
  have hdl : (lines.drop (lines.length - m)).length = m := by
    simp [List.length_drop]; omega
  have hallrev : ∀ l ∈ (lines.drop (lines.length - m)).reverse, (jsonLoads l).isSome := by
    intro l hl
    exact hall l (List.mem_of_mem_drop (List.mem_reverse.mp hl))
  have key := filterMap_allSome jsonLoads ((lines.drop (lines.length - m)).reverse) hallrev
  refine ⟨by rw [key.1, List.length_reverse, hdl], ?_⟩
  intro i hi
  rw [key.2 i]
  have hirev : i < (lines.drop (lines.length - m)).length := by omega
  rw [List.getElem?_reverse (by omega), hdl, List.getElem?_drop]
  congr 2
  omega

/-- C10: when the audit log file does not exist, the audit-log(limit)
operation returns an empty record list rather than an error, for every
limit value. -/
theorem auditLog_missing_file_returns_empty :
    ∀ (R : Type) (jsonLoads : String → Option R) (limit : Int),
      get_audit_log jsonLoads none limit = [] := by
  intro R jsonLoads limit
  rfl

/-- C2: for every audit log file containing k well-formed lines and every
positive limit n, `get_audit_log` returns exactly min(k, n) records ordered
most recent first: the record at 0-based position i is the parse of the
line at 0-based position k - 1 - i of the file. -/
theorem auditLog_returns_min_k_n_most_recent_first {R : Type}
    (jsonLoads : String → Option R) (lines : List String) (n : Int)
    (hn : 0 < n) (hall : ∀ l ∈ lines, (jsonLoads l).isSome) :
    (get_audit_log jsonLoads (some lines) n).length = min lines.length n.toNat ∧
    ∀ i < min lines.length n.toNat,
      (get_audit_log jsonLoads (some lines) n)[i]? =
        (lines[lines.length - 1 - i]?).bind jsonLoads := by
  have hm : min lines.length n.toNat ≤ lines.length := Nat.min_le_left _ _
  have hidx : lines.length - n.toNat = lines.length - min lines.length n.toNat := by
    omega
  rw [get_audit_log_eq jsonLoads lines n hn, hidx]
  exact dropRev_filter jsonLoads lines hall (min lines.length n.toNat) hm

/-- Witness for C2 at the concrete file ["1", "2", "3"] with limit 2. -/
theorem auditLog_returns_min_k_n_most_recent_first_witness :
    (get_audit_log demoParse (some ["1", "2", "3"]) 2).length =
      min (["1", "2", "3"] : List String).length (Int.toNat 2) ∧
    ∀ i < min (["1", "2", "3"] : List String).length (Int.toNat 2),
      (get_audit_log demoParse (some ["1", "2", "3"]) 2)[i]? =
        ((["1", "2", "3"] : List String)[(["1", "2", "3"] : List String).length - 1 - i]?).bind
          demoParse :=
  auditLog_returns_min_k_n_most_recent_first demoParse ["1", "2", "3"] 2
    (by decide) (by decide)

/-- C1 counterexample: a file whose single complete record is followed by
an unparseable final line. The latest-record read returns no record at all
(it parses only the last line and swallows the failure), discarding the
parseable record, while the audit-log read on the same file does return
it. The claim, which requires the latest-record read to skip the bad line
and still return the remaining complete record, is therefore false. -/
theorem read_latest_discards_parseable_record :
    demoParse "7" = some 7 ∧
    read_latest_audit_record demoParse (some ["7", "xx"]) = none ∧
    get_audit_log demoParse (some ["7", "xx"]) 10 = [7] := by
  decide

/-- C1 (amended): for a file of well-formed lines followed by one
unparseable final line and any positive limit n: the audit-log(limit) read
never raises, skips the bad line and returns the remaining complete
records among the selected lines — the bad line still consumes one slot of
the limit, so min(k, n-1) records come back, most recent first — while the
latest-record read never raises but returns no record at all (even though
earlier complete records exist). -/
theorem auditLog_tolerates_bad_final_line {R : Type}
    (jsonLoads : String → Option R) (lines : List String) (bad : String)
    (n : Int) (hn : 0 < n)
    (hall : ∀ l ∈ lines, (jsonLoads l).isSome) (hbad : jsonLoads bad = none) :
    read_latest_audit_record jsonLoads (some (lines ++ [bad])) = none ∧
    (get_audit_log jsonLoads (some (lines ++ [bad])) n).length =
      min lines.length (n.toNat - 1) ∧
    ∀ i < min lines.length (n.toNat - 1),
      (get_audit_log jsonLoads (some (lines ++ [bad])) n)[i]? =
        (lines[lines.length - 1 - i]?).bind jsonLoads := by
  have hn1 : 1 ≤ n.toNat := by omega
  refine ⟨?_, ?_⟩
  · show ((lines ++ [bad]).getLast?).bind jsonLoads = none
    rw [List.getLast?_concat]
    simp [hbad]
  · have hm : min lines.length (n.toNat - 1) ≤ lines.length := Nat.min_le_left _ _
    have heq : get_audit_log jsonLoads (some (lines ++ [bad])) n =
        ((lines.drop (lines.length - min lines.length (n.toNat - 1))).reverse).filterMap
          jsonLoads := by
      rw [get_audit_log_eq jsonLoads (lines ++ [bad]) n hn]
      have ha : (lines ++ [bad]).length - n.toNat ≤ lines.length := by
        simp [List.length_append]; omega
      rw [List.drop_append_of_le_length ha]
      have hidx : (lines ++ [bad]).length - n.toNat =
          lines.length - min lines.length (n.toNat - 1) := by
        simp [List.length_append]; omega
      rw [hidx]
      simp [List.filterMap_append, hbad]
    rw [heq]
    exact dropRev_filter jsonLoads lines hall (min lines.length (n.toNat - 1)) hm

/-- Witness for the amended C1 at the file ["1", "2"] followed by the bad
line "xx", with limit 2. -/
theorem auditLog_tolerates_bad_final_line_witness :
    read_latest_audit_record demoParse (some (["1", "2"] ++ ["xx"])) = none ∧
    (get_audit_log demoParse (some (["1", "2"] ++ ["xx"])) 2).length =
      min (["1", "2"] : List String).length (Int.toNat 2 - 1) ∧
    ∀ i < min (["1", "2"] : List String).length (Int.toNat 2 - 1),
      (get_audit_log demoParse (some (["1", "2"] ++ ["xx"])) 2)[i]? =
        ((["1", "2"] : List String)[(["1", "2"] : List String).length - 1 - i]?).bind
          demoParse :=
  auditLog_tolerates_bad_final_line demoParse ["1", "2"] "xx" 2
    (by decide) (by decide) (by decide)

/-- C4: for every running engine process, `stop_project_service` first
sends the graceful-termination signal, then waits with a 10-second
timeout, escalates to a forceful kill exactly when the process does not
exit within that timeout, removes the pid file, and reports success. -/
theorem stop_sends_terminate_waits_then_kills (w : World) (pid : Nat)
    (h : is_project_running w = (true, some pid)) :
    (stop_project_service w).success = true ∧
    (stop_project_service w).world.pidFile = none ∧
    (stop_project_service w).world.runningPid = none ∧
    (stop_project_service w).trace =
      [SupAction.terminateProc pid, SupAction.waitProc pid 10] ++
        (if w.exitsWithinGrace then [] else [SupAction.killProc pid]) ++
        (if w.pidFile.isSome then [SupAction.removePidFile] else []) := by
  have hr : w.runningPid = some pid := by
    cases hw : w.runningPid with
    | none => simp [is_project_running, hw] at h
    | some a =>
      simp [is_project_running, hw] at h
      rw [h]
  cases hp : w.pidFile <;> cases hg : w.exitsWithinGrace <;>
    simp [stop_project_service, is_project_running, hr, hp, hg]

/-- Witness for C4 at `wRunDemo` (running pid 41, pid file present,
process ignoring the termination signal). -/
theorem stop_sends_terminate_waits_then_kills_witness :
    (stop_project_service wRunDemo).success = true ∧
    (stop_project_service wRunDemo).world.pidFile = none ∧
    (stop_project_service wRunDemo).world.runningPid = none ∧
    (stop_project_service wRunDemo).trace =
      [SupAction.terminateProc 41, SupAction.waitProc 41 10] ++
        (if wRunDemo.exitsWithinGrace then [] else [SupAction.killProc 41]) ++
        (if wRunDemo.pidFile.isSome then [SupAction.removePidFile] else []) :=
  stop_sends_terminate_waits_then_kills wRunDemo 41 rfl

/-- C9: the stop endpoint is idempotent: invoking it when no engine
process is running reports success and leaves the world unchanged, and
stopping twice has the same outcome as stopping once. -/
theorem stop_endpoint_idempotent (w v : World)
    (h : (is_project_running w).1 = false) :
    stop_service w = (Except.ok "Portfolio service stopped successfully", w) ∧
    stop_service ((stop_service v).2) = stop_service v := by
  constructor
  · have hr : w.runningPid = none := by
      cases hw : w.runningPid with
      | none => rfl
      | some a => simp [is_project_running, hw] at h
    simp [stop_service, stop_project_service, is_project_running, hr]
  · cases hv : v.runningPid with
    | none => simp [stop_service, stop_project_service, is_project_running, hv]
    | some a =>
      cases hp : v.pidFile <;>
        simp [stop_service, stop_project_service, is_project_running, hv, hp]

/-- Witness for C9 at the idle world `wIdleDemo` and, for the
stop-after-stop part, the running world `wRunDemo`. -/
theorem stop_endpoint_idempotent_witness :
    stop_service wIdleDemo =
      (Except.ok "Portfolio service stopped successfully", wIdleDemo) ∧
    stop_service ((stop_service wRunDemo).2) = stop_service wRunDemo :=
  stop_endpoint_idempotent wIdleDemo wRunDemo rfl

/-- C7: the restart operation keeps the existing configuration: it leaves
`config.json` and `.env` exactly as they were, while (when `Popen`
succeeds) recording the pid of the newly started process. -/
theorem restart_preserves_config_and_env (w : World) :
    ((restart_service w).2).configFile = w.configFile ∧
    ((restart_service w).2).envFile = w.envFile ∧
    ((restart_service w).2).pidFile =
      (if w.popenFails then ((stop_project_service w).world).pidFile
       else some w.freshPid) := by
  cases hv : w.runningPid <;> cases hp : w.pidFile <;> cases hf : w.popenFails <;>
    cases hk : w.startKeepsRunning <;>
      simp [restart_service, stop_project_service, start_project_service,
        is_project_running, hv, hp, hf, hk]

/-- C8: a configure request whose venue URL does not begin with
`https://` is rejected by validation before any effect (the world is
unchanged), and a request is accepted only with an HTTPS venue URL. -/
theorem configure_requires_https (r r2 : RawConfigurationRequest)
    (w w2 : World) (m : String)
    (h1 : pyStartsWith r.api_base_url "https://" = false)
    (h2 : (configure_service r2 w2).1 = Except.ok m) :
    configure_service r w = (Except.error "API URL must use HTTPS", w) ∧
    pyStartsWith r2.api_base_url "https://" = true := by
  constructor
  · simp [configure_service, validate_https_url, h1]
  · by_contra hs
    have hs2 : pyStartsWith r2.api_base_url "https://" = false :=
      Bool.eq_false_iff.mpr hs
    cases hf : w2.popenFails <;> cases hk : w2.startKeepsRunning <;>
      simp [configure_service, validate_https_url, hs2] at h2

/-- Witness for C8: the HTTP request is rejected with the world untouched,
while the HTTPS request on the idle world is accepted. -/
theorem configure_requires_https_witness :
    configure_service rHttpDemo wRunDemo =
      (Except.error "API URL must use HTTPS", wRunDemo) ∧
    pyStartsWith rHttpsDemo.api_base_url "https://" = true :=
  configure_requires_https rHttpDemo rHttpsDemo wRunDemo wIdleDemo
    "Portfolio service configured and started successfully (PID: 42)" rfl rfl

/-- C5: for every configure request that passes validation, the config
file written for the engine is exactly the JSON object of §6 — the seven
fields `risk_free_rate`, `rebalance_interval`, `target_sharpe`,
`cov_window`, `price_endpoint`, `position_endpoint`, `audit_log_path`,
each taken from the request or its documented default when omitted. -/
theorem configFile_matches_spec (r : RawConfigurationRequest) (w : World)
    (h : pyStartsWith r.api_base_url "https://" = true) :
    create_config_file (resolveRequest r) = configFileSpec r ∧
    ((configure_service r w).2).configFile = some (configFileSpec r) := by
  refine ⟨rfl, ?_⟩
  cases hv : w.runningPid <;> cases hp : w.pidFile <;> cases hf : w.popenFails <;>
    cases hk : w.startKeepsRunning <;>
      simp [configure_service, validate_https_url, h, stop_project_service,
        start_project_service, is_project_running, hv, hp, hf, hk,
        create_config_file, configFileSpec, resolveRequest]

/-- Witness for C5 at the HTTPS request omitting every optional field, on
the idle world. -/
theorem configFile_matches_spec_witness :
    create_config_file (resolveRequest rHttpsDemo) = configFileSpec rHttpsDemo ∧
    ((configure_service rHttpsDemo wIdleDemo).2).configFile =
      some (configFileSpec rHttpsDemo) :=
  configFile_matches_spec rHttpsDemo wIdleDemo rfl

/-- C6: for every configure request that passes validation, the credential
file written for the engine is exactly the two key/value lines binding the
venue base URL and the access token, and its content does not depend on
`api_secret` in any way. -/
theorem envFile_two_lines_without_secret (r : RawConfigurationRequest)
    (w : World) (s : Option String)
    (h : pyStartsWith r.api_base_url "https://" = true) :
    create_env_file (resolveRequest r) = envFileSpec r.api_base_url r.api_key ∧
    ((configure_service r w).2).envFile =
      some (envFileSpec r.api_base_url r.api_key) ∧
    create_env_file (resolveRequest { r with api_secret := s }) =
      create_env_file (resolveRequest r) := by
  refine ⟨rfl, ?_, rfl⟩
  cases hv : w.runningPid <;> cases hp : w.pidFile <;> cases hf : w.popenFails <;>
    cases hk : w.startKeepsRunning <;>
      simp [configure_service, validate_https_url, h, stop_project_service,
        start_project_service, is_project_running, hv, hp, hf, hk,
        create_env_file, envFileSpec, resolveRequest]

/-- Witness for C6 at the HTTPS request on the idle world, replacing the
absent `api_secret` by a concrete secret. -/
theorem envFile_two_lines_without_secret_witness :
    create_env_file (resolveRequest rHttpsDemo) =
      envFileSpec rHttpsDemo.api_base_url rHttpsDemo.api_key ∧
    ((configure_service rHttpsDemo wIdleDemo).2).envFile =
      some (envFileSpec rHttpsDemo.api_base_url rHttpsDemo.api_key) ∧
    create_env_file (resolveRequest { rHttpsDemo with api_secret := some "s3cr3t" }) =
      create_env_file (resolveRequest rHttpsDemo) :=
  envFile_two_lines_without_secret rHttpsDemo wIdleDemo (some "s3cr3t") rfl

/-- C3: constructing a `PortfolioConfig` fails immediately whenever the
asset list is empty, contains duplicate symbols, `risk_free_rate` lies
outside [0,1], or `min_weight_per_asset` is not less than
`max_weight_per_asset`; in particular the asset list
["BTC", "ETH", "BTC"] fails with the duplicate-symbol error. -/
theorem portfolioConfig_invalid_never_active (c : PortfolioConfigData)
    (h : c.assets = [] ∨ ¬ c.assets.Nodup ∨ c.risk_free_rate < 0 ∨
      1 < c.risk_free_rate ∨ c.max_weight_per_asset ≤ c.min_weight_per_asset) :
    exceptFails (PortfolioConfig.construct c) = true ∧
    PortfolioConfig.construct cDupDemo =
      Except.error ["Duplicate asset symbols found"] := by
  constructor
  · have hne : configViolations c ≠ [] := by
      rcases h with h | h | h | h | h <;> simp [configViolations, h]
    rcases hv : configViolations c with _ | ⟨a, l⟩
    · exact absurd hv hne
    · simp [PortfolioConfig.construct, hv, exceptFails]
  · rfl

/-- Witness for C3 at the empty-asset-list config `cEmptyDemo`. -/
theorem portfolioConfig_invalid_never_active_witness :
    exceptFails (PortfolioConfig.construct cEmptyDemo) = true ∧
    PortfolioConfig.construct cDupDemo =
      Except.error ["Duplicate asset symbols found"] :=
  portfolioConfig_invalid_never_active cEmptyDemo (Or.inl rfl)
